import Mathlib

/-!
Verification development for the Coordinator Broker metadata facade and
the ancillary HTTP route constants of the repository.

The broker implementation itself is not part of the provided sources
(only its test suite is), so the broker operations below are modelled
from the specification, faithfully following the shared five-step
protocol of spec section 4.1 and the per-operation contracts.  The
HTTP route constants are embedded directly from
`src/internal/http/router.go`.
-/

namespace commonpb

/-- Status codes carried in response envelopes: the success code, the
collection-not-exists code, or any other numeric error code. -/
inductive ErrorCode where
  | success
  | collectionNotExists
  | other (code : Nat)
  deriving DecidableEq, Repr

/-- Response envelope status: an error code plus a reason message. -/
structure Status where
  errorCode : ErrorCode
  reason : String
  deriving DecidableEq, Repr

end commonpb

namespace schemapb

/-- A collection schema: a name plus a list of field names. -/
structure CollectionSchema where
  name : String
  fields : List String
  deriving DecidableEq, Repr

end schemapb

namespace milvuspb

/-- Envelope of the describe-collection remote call. -/
structure DescribeCollectionResponse where
  status : commonpb.Status
  schema : schemapb.CollectionSchema
  deriving DecidableEq, Repr

/-- Envelope of the show-partitions remote call. -/
structure ShowPartitionsResponse where
  status : commonpb.Status
  partitionIDs : List Int
  deriving DecidableEq, Repr

end milvuspb

namespace datapb

/-- Recovery descriptor of one virtual (write-ahead) channel. -/
structure VchannelInfo where
  collectionID : Int
  channelName : String
  deriving DecidableEq, Repr

/-- v1 segment descriptor: a binlog reference for one segment. -/
structure SegmentBinlogs where
  segmentID : Int
  deriving DecidableEq, Repr

/-- v2 segment descriptor: full segment info. -/
structure SegmentInfo where
  id : Int
  collectionID : Int
  deriving DecidableEq, Repr

/-- Envelope of the get-recovery-info (protocol v1) remote call. -/
structure GetRecoveryInfoResponse where
  status : commonpb.Status
  channels : List VchannelInfo
  binlogs : List SegmentBinlogs
  deriving DecidableEq, Repr

/-- Envelope of the get-recovery-info-v2 remote call. -/
structure GetRecoveryInfoResponseV2 where
  status : commonpb.Status
  channels : List VchannelInfo
  segments : List SegmentInfo
  deriving DecidableEq, Repr

/-- Envelope of the get-segment-info remote call; the broker returns
this envelope whole to its caller. -/
structure GetSegmentInfoResponse where
  status : commonpb.Status
  infos : List SegmentInfo
  deriving DecidableEq, Repr

end datapb

namespace indexpb

/-- One collection-level index definition. -/
structure IndexInfo where
  indexID : Int
  deriving DecidableEq, Repr

/-- Envelope of the describe-index remote call. -/
structure DescribeIndexResponse where
  status : commonpb.Status
  indexInfos : List IndexInfo
  deriving DecidableEq, Repr

/-- One per-index file-path record inside a per-segment entry. -/
structure IndexFilePathInfo where
  indexID : Int
  filePaths : List String
  deriving DecidableEq, Repr

/-- Per-segment entry of the index-info response mapping: the segment
ID and its nested sequence of per-index file-path records. -/
structure SegmentInfo where
  segmentID : Int
  indexInfos : List IndexFilePathInfo
  deriving DecidableEq, Repr

/-- Envelope of the get-index-infos remote call; its payload is a
mapping keyed by segment ID (embedded as an association list). -/
structure GetIndexInfoResponse where
  status : commonpb.Status
  segmentInfo : List (Int × SegmentInfo)
  deriving DecidableEq, Repr

end indexpb

namespace querypb

/-- Per-segment field index info handed to broker callers: index ID
plus file paths. -/
structure FieldIndexInfo where
  indexID : Int
  filePaths : List String
  deriving DecidableEq, Repr

end querypb

/-- Modelled from the spec: outcome of one remote call — either a
transport-level failure (no envelope produced) or a response
envelope (spec section 4.1, steps 3 and 4). -/
inductive CallResult (α : Type) where
  | transportError (msg : String)
  | envelope (resp : α)
  deriving DecidableEq, Repr

/-- Modelled from the spec: the error taxonomy of spec section 7 plus
the missing-capability programming-error condition of section 9. -/
inductive BrokerErr where
  | remoteCallFailed (op : String) (msg : String)
  | entityNotFound (reason : String)
  | remoteOperationFailed (code : Nat) (msg : String)
  | missingCapability (op : String)
  deriving DecidableEq, Repr

/-- Kind check for the entity-not-found error (identity check in the
style of errors.Is, never message-text matching). -/
def BrokerErr.isEntityNotFound : BrokerErr → Bool
  | .entityNotFound _ => true
  | _ => false

/-- Kind check for the remote-call-failed error. -/
def BrokerErr.isRemoteCallFailed : BrokerErr → Bool
  | .remoteCallFailed _ _ => true
  | _ => false

/-- Modelled from the spec: step 4 of the shared protocol — the finite
status-code-to-error mapping.  Success proceeds; the
collection-not-exists code maps to the entity-not-found kind; every
other non-success code maps to the generic remote-operation-failed
error carrying the original code and message. -/
def checkStatus (s : commonpb.Status) : Except BrokerErr Unit :=
  match s.errorCode with
  | .success => .ok ()
  | .collectionNotExists => .error (.entityNotFound s.reason)
  | .other c => .error (.remoteOperationFailed c s.reason)

/-- Modelled from the spec: the remote-call handle to the collection
authority, one typed call per remote method it owns. -/
structure RootCoordClient where
  describeCollection : Int → CallResult milvuspb.DescribeCollectionResponse
  showPartitions : Int → CallResult milvuspb.ShowPartitionsResponse

/-- Modelled from the spec: the remote-call handle to the data
authority, one typed call per remote method it owns. -/
structure DataCoordClient where
  getRecoveryInfo : Int → Int → CallResult datapb.GetRecoveryInfoResponse
  getRecoveryInfoV2 : Int → Int → CallResult datapb.GetRecoveryInfoResponseV2
  describeIndex : Int → CallResult indexpb.DescribeIndexResponse
  getSegmentInfo : List Int → CallResult datapb.GetSegmentInfoResponse
  getIndexInfos : Int → Int → CallResult indexpb.GetIndexInfoResponse

/-- Modelled from the spec: the Coordinator Broker holds two remote
call handles, either of which may be absent. -/
structure CoordinatorBroker where
  dataCoord : Option DataCoordClient
  rootCoord : Option RootCoordClient

/-- Modelled from the spec: broker construction takes the data
authority handle and the collection authority handle, either possibly
absent. -/
def NewCoordinatorBroker (dc : Option DataCoordClient)
    (rc : Option RootCoordClient) : CoordinatorBroker :=
  { dataCoord := dc, rootCoord := rc }

/-- Modelled from the spec: GetCollectionSchema(collectionID) calls the
collection authority describe operation and extracts the schema. -/
def GetCollectionSchema (b : CoordinatorBroker) (collectionID : Int) :
    Except BrokerErr schemapb.CollectionSchema :=
  match b.rootCoord with
  | none => .error (.missingCapability "DescribeCollection")
  | some rc =>
    match rc.describeCollection collectionID with
    | .transportError m => .error (.remoteCallFailed "DescribeCollection" m)
    | .envelope resp =>
      match checkStatus resp.status with
      | .error e => .error e
      | .ok _ => .ok resp.schema

/-- Modelled from the spec: GetPartitions(collectionID) calls the
collection authority show-partitions operation and extracts the
ordered partition ID sequence. -/
def GetPartitions (b : CoordinatorBroker) (collectionID : Int) :
    Except BrokerErr (List Int) :=
  match b.rootCoord with
  | none => .error (.missingCapability "ShowPartitions")
  | some rc =>
    match rc.showPartitions collectionID with
    | .transportError m => .error (.remoteCallFailed "ShowPartitions" m)
    | .envelope resp =>
      match checkStatus resp.status with
      | .error e => .error e
      | .ok _ => .ok resp.partitionIDs

/-- Modelled from the spec: GetRecoveryInfo(collectionID, partitionID)
(protocol v1) returns the virtual-channel list and the
segment-binlog-reference list verbatim from the payload. -/
def GetRecoveryInfo (b : CoordinatorBroker) (collectionID : Int)
    (partitionID : Int) :
    Except BrokerErr (List datapb.VchannelInfo × List datapb.SegmentBinlogs) :=
  match b.dataCoord with
  | none => .error (.missingCapability "GetRecoveryInfo")
  | some dc =>
    match dc.getRecoveryInfo collectionID partitionID with
    | .transportError m => .error (.remoteCallFailed "GetRecoveryInfo" m)
    | .envelope resp =>
      match checkStatus resp.status with
      | .error e => .error e
      | .ok _ => .ok (resp.channels, resp.binlogs)

/-- Modelled from the spec: GetRecoveryInfoV2(collectionID,
partitionID) has the same shape as v1 against the newer payload,
exposed side by side with v1. -/
def GetRecoveryInfoV2 (b : CoordinatorBroker) (collectionID : Int)
    (partitionID : Int) :
    Except BrokerErr (List datapb.VchannelInfo × List datapb.SegmentInfo) :=
  match b.dataCoord with
  | none => .error (.missingCapability "GetRecoveryInfoV2")
  | some dc =>
    match dc.getRecoveryInfoV2 collectionID partitionID with
    | .transportError m => .error (.remoteCallFailed "GetRecoveryInfoV2" m)
    | .envelope resp =>
      match checkStatus resp.status with
      | .error e => .error e
      | .ok _ => .ok (resp.channels, resp.segments)

/-- Modelled from the spec: DescribeIndex(collectionID) returns the
ordered sequence of index-info records for the collection. -/
def DescribeIndex (b : CoordinatorBroker) (collectionID : Int) :
    Except BrokerErr (List indexpb.IndexInfo) :=
  match b.dataCoord with
  | none => .error (.missingCapability "DescribeIndex")
  | some dc =>
    match dc.describeIndex collectionID with
    | .transportError m => .error (.remoteCallFailed "DescribeIndex" m)
    | .envelope resp =>
      match checkStatus resp.status with
      | .error e => .error e
      | .ok _ => .ok resp.indexInfos

/-- Modelled from the spec: GetSegmentInfo(segmentIDs...) takes the
variadic segment ID input as a list and returns the raw response
envelope whole (the documented asymmetry). -/
def GetSegmentInfo (b : CoordinatorBroker) (segmentIDs : List Int) :
    Except BrokerErr datapb.GetSegmentInfoResponse :=
  match b.dataCoord with
  | none => .error (.missingCapability "GetSegmentInfo")
  | some dc =>
    match dc.getSegmentInfo segmentIDs with
    | .transportError m => .error (.remoteCallFailed "GetSegmentInfo" m)
    | .envelope resp =>
      match checkStatus resp.status with
      | .error e => .error e
      | .ok _ => .ok resp

/-- Conversion of one per-index file-path record into the per-field
index info record handed to broker callers. -/
def toFieldIndexInfo (i : indexpb.IndexFilePathInfo) :
    querypb.FieldIndexInfo :=
  { indexID := i.indexID, filePaths := i.filePaths }

/-- Modelled from the spec: GetIndexInfo(collectionID, segmentID) looks
the requested segment up in the keyed payload mapping and flattens its
nested sequence, in order, into the output; an absent key yields an
empty sequence with no error. -/
def GetIndexInfo (b : CoordinatorBroker) (collectionID : Int)
    (segmentID : Int) : Except BrokerErr (List querypb.FieldIndexInfo) :=
  match b.dataCoord with
  | none => .error (.missingCapability "GetIndexInfos")
  | some dc =>
    match dc.getIndexInfos collectionID segmentID with
    | .transportError m => .error (.remoteCallFailed "GetIndexInfos" m)
    | .envelope resp =>
      match checkStatus resp.status with
      | .error e => .error e
      | .ok _ =>
        match List.lookup segmentID resp.segmentInfo with
        | none => .ok []
        | some entry => .ok (entry.indexInfos.map toFieldIndexInfo)

/-- HealthzRouterPath is default path for check health state
(src/internal/http/router.go). -/
def HealthzRouterPath : String := "/healthz"

/-- LogLevelRouterPath is path for Get and Update log level at runtime
(src/internal/http/router.go). -/
def LogLevelRouterPath : String := "/log/level"

/-- EventLogRouterPath is path for eventlog control
(src/internal/http/router.go). -/
def EventLogRouterPath : String := "/eventlog"

/-- A concrete status value carrying the success code. -/
def okStatus : commonpb.Status := { errorCode := .success, reason := "" }

/-- A concrete data authority client used to evaluate the broker
operations at concrete inputs. -/
def dcSample : DataCoordClient where
  getRecoveryInfo := fun _ _ => .envelope
    { status := okStatus
      channels := [{ collectionID := 100, channelName := "dml_0" }]
      binlogs := [{ segmentID := 1 }, { segmentID := 2 }, { segmentID := 3 }] }
  getRecoveryInfoV2 := fun _ _ => .envelope
    { status := okStatus
      channels := [{ collectionID := 100, channelName := "dml_0" }]
      segments := [{ id := 1, collectionID := 100 },
        { id := 2, collectionID := 100 }, { id := 3, collectionID := 100 }] }
  describeIndex := fun _ => .envelope
    { status := okStatus
      indexInfos := [{ indexID := 1 }, { indexID := 2 }] }
  getSegmentInfo := fun ids => .envelope
    { status := okStatus
      infos := ids.map fun i => { id := i, collectionID := 100 } }
  getIndexInfos := fun _ _ => .envelope
    { status := okStatus
      segmentInfo := [(10000,
        { segmentID := 10000
          indexInfos := [{ indexID := 1, filePaths := [] },
            { indexID := 2, filePaths := [] },
            { indexID := 3, filePaths := [] }] })] }

/-- A concrete collection authority client answering with success
envelopes. -/
def rcSample : RootCoordClient where
  describeCollection := fun _ => .envelope
    { status := okStatus, schema := { name := "test_schema", fields := [] } }
  showPartitions := fun _ => .envelope
    { status := okStatus, partitionIDs := [10, 11, 12] }

/-- A concrete collection authority client answering with the
collection-not-exists status. -/
def rcNotFound : RootCoordClient where
  describeCollection := fun _ => .envelope
    { status := { errorCode := .collectionNotExists, reason := "mock" }
      schema := { name := "", fields := [] } }
  showPartitions := fun _ => .envelope
    { status := { errorCode := .collectionNotExists, reason := "mock" }
      partitionIDs := [] }

/-- C10: the three ancillary HTTP route path constants have exactly the
values "/healthz", "/log/level" and "/eventlog". -/
theorem router_path_constants :
    HealthzRouterPath = "/healthz" ∧ LogLevelRouterPath = "/log/level" ∧
      EventLogRouterPath = "/eventlog" :=
  ⟨rfl, rfl, rfl⟩

/-- C1: on a successful get-index-infos envelope, GetIndexInfo returns
the requested segment entry's nested per-index records flattened in
order with no error when the segment is present in the mapping, and an
empty sequence with no error when it is absent. -/
theorem GetIndexInfo_lookup_flatten
    (dc : DataCoordClient) (r : Option RootCoordClient)
    (collectionID segmentID : Int)
    (resp : indexpb.GetIndexInfoResponse)
    (hcall : dc.getIndexInfos collectionID segmentID = .envelope resp)
    (hok : resp.status.errorCode = .success) :
    (∀ entry, List.lookup segmentID resp.segmentInfo = some entry →
      GetIndexInfo ⟨some dc, r⟩ collectionID segmentID =
        .ok (entry.indexInfos.map toFieldIndexInfo)) ∧
    (List.lookup segmentID resp.segmentInfo = none →
      GetIndexInfo ⟨some dc, r⟩ collectionID segmentID = .ok []) := by
  constructor
  · intro entry hfind
    simp [GetIndexInfo, hcall, checkStatus, hok, hfind]
  · intro hnone
    simp [GetIndexInfo, hcall, checkStatus, hok, hnone]

/-- C1 witness: evaluated on the concrete sample client, the present
segment 10000 yields index IDs 1, 2, 3 in order and the absent segment
99999 yields the empty sequence. -/
theorem GetIndexInfo_lookup_flatten_witness :
    GetIndexInfo ⟨some dcSample, none⟩ 100 10000 =
      .ok [{ indexID := 1, filePaths := [] }, { indexID := 2, filePaths := [] },
        { indexID := 3, filePaths := [] }] ∧
    GetIndexInfo ⟨some dcSample, none⟩ 100 99999 = .ok [] := by
  constructor
  · exact (GetIndexInfo_lookup_flatten dcSample none 100 10000 _ rfl rfl).1
      { segmentID := 10000
        indexInfos := [{ indexID := 1, filePaths := [] },
          { indexID := 2, filePaths := [] },
          { indexID := 3, filePaths := [] }] } (by decide)
  · exact (GetIndexInfo_lookup_flatten dcSample none 100 99999 _ rfl rfl).2
      (by decide)

/-- C2: when show-partitions answers with the collection-not-exists
status, GetPartitions returns an error recognizable as the
entity-not-found kind by an identity-style kind check. -/
theorem GetPartitions_collection_not_found
    (rc : RootCoordClient) (d : Option DataCoordClient) (collectionID : Int)
    (resp : milvuspb.ShowPartitionsResponse)
    (hcall : rc.showPartitions collectionID = .envelope resp)
    (hcode : resp.status.errorCode = .collectionNotExists) :
    ∃ e, GetPartitions ⟨d, some rc⟩ collectionID = .error e ∧
      e.isEntityNotFound = true := by
  refine ⟨.entityNotFound resp.status.reason, ?_, rfl⟩
  simp [GetPartitions, hcall, checkStatus, hcode]

/-- C2 witness: evaluated on the concrete not-found client at
collection 100. -/
theorem GetPartitions_collection_not_found_witness :
    ∃ e, GetPartitions ⟨none, some rcNotFound⟩ 100 = .error e ∧
      e.isEntityNotFound = true :=
  GetPartitions_collection_not_found rcNotFound none 100 _ rfl rfl

/-- A concrete status value carrying a generic non-success code. -/
def failStatus : commonpb.Status := { errorCode := .other 1, reason := "mocked" }

/-- A data authority client whose every call fails at transport level
(no envelope produced). -/
def dcDown : DataCoordClient where
  getRecoveryInfo := fun _ _ => .transportError "mock"
  getRecoveryInfoV2 := fun _ _ => .transportError "mock"
  describeIndex := fun _ => .transportError "mock"
  getSegmentInfo := fun _ => .transportError "mock"
  getIndexInfos := fun _ _ => .transportError "mock"

/-- A collection authority client whose every call fails at transport
level (no envelope produced). -/
def rcDown : RootCoordClient where
  describeCollection := fun _ => .transportError "mock"
  showPartitions := fun _ => .transportError "mock"

/-- A data authority client answering every call with a failure-status
envelope. -/
def dcFail : DataCoordClient where
  getRecoveryInfo := fun _ _ => .envelope
    { status := failStatus, channels := [], binlogs := [] }
  getRecoveryInfoV2 := fun _ _ => .envelope
    { status := failStatus, channels := [], segments := [] }
  describeIndex := fun _ => .envelope { status := failStatus, indexInfos := [] }
  getSegmentInfo := fun _ => .envelope { status := failStatus, infos := [] }
  getIndexInfos := fun _ _ => .envelope
    { status := failStatus, segmentInfo := [] }

/-- A collection authority client answering every call with a
failure-status envelope. -/
def rcFail : RootCoordClient where
  describeCollection := fun _ => .envelope
    { status := failStatus, schema := { name := "", fields := [] } }
  showPartitions := fun _ => .envelope
    { status := failStatus, partitionIDs := [] }

/-- C3: a transport-level failure of the remote call (no envelope) makes
every broker operation return the remote-call-failed error annotated
with the operation name, never a not-found or empty result. -/
theorem broker_transport_failure
    (dc : DataCoordClient) (rc : RootCoordClient)
    (cid pid sid : Int) (ids : List Int)
    (m1 m2 m3 m4 m5 m6 m7 : String)
    (h1 : rc.describeCollection cid = .transportError m1)
    (h2 : rc.showPartitions cid = .transportError m2)
    (h3 : dc.getRecoveryInfo cid pid = .transportError m3)
    (h4 : dc.getRecoveryInfoV2 cid pid = .transportError m4)
    (h5 : dc.describeIndex cid = .transportError m5)
    (h6 : dc.getSegmentInfo ids = .transportError m6)
    (h7 : dc.getIndexInfos cid sid = .transportError m7) :
    GetCollectionSchema ⟨some dc, some rc⟩ cid =
      .error (.remoteCallFailed "DescribeCollection" m1) ∧
    GetPartitions ⟨some dc, some rc⟩ cid =
      .error (.remoteCallFailed "ShowPartitions" m2) ∧
    GetRecoveryInfo ⟨some dc, some rc⟩ cid pid =
      .error (.remoteCallFailed "GetRecoveryInfo" m3) ∧
    GetRecoveryInfoV2 ⟨some dc, some rc⟩ cid pid =
      .error (.remoteCallFailed "GetRecoveryInfoV2" m4) ∧
    DescribeIndex ⟨some dc, some rc⟩ cid =
      .error (.remoteCallFailed "DescribeIndex" m5) ∧
    GetSegmentInfo ⟨some dc, some rc⟩ ids =
      .error (.remoteCallFailed "GetSegmentInfo" m6) ∧
    GetIndexInfo ⟨some dc, some rc⟩ cid sid =
      .error (.remoteCallFailed "GetIndexInfos" m7) := by
  refine ⟨?_, ?_, ?_, ?_, ?_, ?_, ?_⟩ <;>
    simp [GetCollectionSchema, GetPartitions, GetRecoveryInfo,
      GetRecoveryInfoV2, DescribeIndex, GetSegmentInfo, GetIndexInfo,
      h1, h2, h3, h4, h5, h6, h7]

/-- C3 witness: evaluated on the concrete transport-failing clients. -/
theorem broker_transport_failure_witness :
    GetCollectionSchema ⟨some dcDown, some rcDown⟩ 100 =
      .error (.remoteCallFailed "DescribeCollection" "mock") ∧
    GetPartitions ⟨some dcDown, some rcDown⟩ 100 =
      .error (.remoteCallFailed "ShowPartitions" "mock") ∧
    GetRecoveryInfo ⟨some dcDown, some rcDown⟩ 100 1000 =
      .error (.remoteCallFailed "GetRecoveryInfo" "mock") ∧
    GetRecoveryInfoV2 ⟨some dcDown, some rcDown⟩ 100 1000 =
      .error (.remoteCallFailed "GetRecoveryInfoV2" "mock") ∧
    DescribeIndex ⟨some dcDown, some rcDown⟩ 100 =
      .error (.remoteCallFailed "DescribeIndex" "mock") ∧
    GetSegmentInfo ⟨some dcDown, some rcDown⟩ [1] =
      .error (.remoteCallFailed "GetSegmentInfo" "mock") ∧
    GetIndexInfo ⟨some dcDown, some rcDown⟩ 100 10000 =
      .error (.remoteCallFailed "GetIndexInfos" "mock") :=
  broker_transport_failure dcDown rcDown 100 1000 10000 [1]
    "mock" "mock" "mock" "mock" "mock" "mock" "mock"
    rfl rfl rfl rfl rfl rfl rfl

/-- The status-to-error mapping produces an error for every non-success
code. -/
theorem checkStatus_error_of_ne (s : commonpb.Status)
    (h : s.errorCode ≠ .success) : ∃ e, checkStatus s = .error e := by
  cases hc : s.errorCode with
  | success => exact absurd hc h
  | collectionNotExists =>
    exact ⟨.entityNotFound s.reason, by simp [checkStatus, hc]⟩
  | other c =>
    exact ⟨.remoteOperationFailed c s.reason, by simp [checkStatus, hc]⟩

/-- C4: an envelope with any non-success status makes every broker
operation return a typed error immediately, never a (partially
populated) success value. -/
theorem broker_error_status
    (dc : DataCoordClient) (rc : RootCoordClient)
    (cid pid sid : Int) (ids : List Int)
    (r1 : milvuspb.DescribeCollectionResponse)
    (r2 : milvuspb.ShowPartitionsResponse)
    (r3 : datapb.GetRecoveryInfoResponse)
    (r4 : datapb.GetRecoveryInfoResponseV2)
    (r5 : indexpb.DescribeIndexResponse)
    (r6 : datapb.GetSegmentInfoResponse)
    (r7 : indexpb.GetIndexInfoResponse)
    (h1 : rc.describeCollection cid = .envelope r1)
    (h2 : rc.showPartitions cid = .envelope r2)
    (h3 : dc.getRecoveryInfo cid pid = .envelope r3)
    (h4 : dc.getRecoveryInfoV2 cid pid = .envelope r4)
    (h5 : dc.describeIndex cid = .envelope r5)
    (h6 : dc.getSegmentInfo ids = .envelope r6)
    (h7 : dc.getIndexInfos cid sid = .envelope r7)
    (n1 : r1.status.errorCode ≠ .success)
    (n2 : r2.status.errorCode ≠ .success)
    (n3 : r3.status.errorCode ≠ .success)
    (n4 : r4.status.errorCode ≠ .success)
    (n5 : r5.status.errorCode ≠ .success)
    (n6 : r6.status.errorCode ≠ .success)
    (n7 : r7.status.errorCode ≠ .success) :
    (∃ e, GetCollectionSchema ⟨some dc, some rc⟩ cid = .error e) ∧
    (∃ e, GetPartitions ⟨some dc, some rc⟩ cid = .error e) ∧
    (∃ e, GetRecoveryInfo ⟨some dc, some rc⟩ cid pid = .error e) ∧
    (∃ e, GetRecoveryInfoV2 ⟨some dc, some rc⟩ cid pid = .error e) ∧
    (∃ e, DescribeIndex ⟨some dc, some rc⟩ cid = .error e) ∧
    (∃ e, GetSegmentInfo ⟨some dc, some rc⟩ ids = .error e) ∧
    (∃ e, GetIndexInfo ⟨some dc, some rc⟩ cid sid = .error e) := by
  obtain ⟨e1, he1⟩ := checkStatus_error_of_ne _ n1
  obtain ⟨e2, he2⟩ := checkStatus_error_of_ne _ n2
  obtain ⟨e3, he3⟩ := checkStatus_error_of_ne _ n3
  obtain ⟨e4, he4⟩ := checkStatus_error_of_ne _ n4
  obtain ⟨e5, he5⟩ := checkStatus_error_of_ne _ n5
  obtain ⟨e6, he6⟩ := checkStatus_error_of_ne _ n6
  obtain ⟨e7, he7⟩ := checkStatus_error_of_ne _ n7
  exact ⟨⟨e1, by simp [GetCollectionSchema, h1, he1]⟩,
    ⟨e2, by simp [GetPartitions, h2, he2]⟩,
    ⟨e3, by simp [GetRecoveryInfo, h3, he3]⟩,
    ⟨e4, by simp [GetRecoveryInfoV2, h4, he4]⟩,
    ⟨e5, by simp [DescribeIndex, h5, he5]⟩,
    ⟨e6, by simp [GetSegmentInfo, h6, he6]⟩,
    ⟨e7, by simp [GetIndexInfo, h7, he7]⟩⟩

/-- C4 witness: evaluated on the concrete failure-status clients. -/
theorem broker_error_status_witness :
    (∃ e, GetCollectionSchema ⟨some dcFail, some rcFail⟩ 100 = .error e) ∧
    (∃ e, GetPartitions ⟨some dcFail, some rcFail⟩ 100 = .error e) ∧
    (∃ e, GetRecoveryInfo ⟨some dcFail, some rcFail⟩ 100 1000 = .error e) ∧
    (∃ e, GetRecoveryInfoV2 ⟨some dcFail, some rcFail⟩ 100 1000 = .error e) ∧
    (∃ e, DescribeIndex ⟨some dcFail, some rcFail⟩ 100 = .error e) ∧
    (∃ e, GetSegmentInfo ⟨some dcFail, some rcFail⟩ [1] = .error e) ∧
    (∃ e, GetIndexInfo ⟨some dcFail, some rcFail⟩ 100 10000 = .error e) :=
  broker_error_status dcFail rcFail 100 1000 10000 [1]
    _ _ _ _ _ _ _ rfl rfl rfl rfl rfl rfl rfl
    (by decide) (by decide) (by decide) (by decide) (by decide)
    (by decide) (by decide)

/-- C5: a success-status envelope makes every broker operation return
the exact extracted payload with no error; in particular a
describe-collection envelope carrying schema name "test_schema" makes
GetCollectionSchema return that very schema. -/
theorem broker_success_extraction
    (dc : DataCoordClient) (rc : RootCoordClient)
    (cid pid sid : Int) (ids : List Int)
    (r1 : milvuspb.DescribeCollectionResponse)
    (r2 : milvuspb.ShowPartitionsResponse)
    (r3 : datapb.GetRecoveryInfoResponse)
    (r4 : datapb.GetRecoveryInfoResponseV2)
    (r5 : indexpb.DescribeIndexResponse)
    (r6 : datapb.GetSegmentInfoResponse)
    (r7 : indexpb.GetIndexInfoResponse)
    (h1 : rc.describeCollection cid = .envelope r1)
    (h2 : rc.showPartitions cid = .envelope r2)
    (h3 : dc.getRecoveryInfo cid pid = .envelope r3)
    (h4 : dc.getRecoveryInfoV2 cid pid = .envelope r4)
    (h5 : dc.describeIndex cid = .envelope r5)
    (h6 : dc.getSegmentInfo ids = .envelope r6)
    (h7 : dc.getIndexInfos cid sid = .envelope r7)
    (s1 : r1.status.errorCode = .success)
    (s2 : r2.status.errorCode = .success)
    (s3 : r3.status.errorCode = .success)
    (s4 : r4.status.errorCode = .success)
    (s5 : r5.status.errorCode = .success)
    (s6 : r6.status.errorCode = .success)
    (s7 : r7.status.errorCode = .success) :
    GetCollectionSchema ⟨some dc, some rc⟩ cid = .ok r1.schema ∧
    GetPartitions ⟨some dc, some rc⟩ cid = .ok r2.partitionIDs ∧
    GetRecoveryInfo ⟨some dc, some rc⟩ cid pid =
      .ok (r3.channels, r3.binlogs) ∧
    GetRecoveryInfoV2 ⟨some dc, some rc⟩ cid pid =
      .ok (r4.channels, r4.segments) ∧
    DescribeIndex ⟨some dc, some rc⟩ cid = .ok r5.indexInfos ∧
    GetSegmentInfo ⟨some dc, some rc⟩ ids = .ok r6 ∧
    GetIndexInfo ⟨some dc, some rc⟩ cid sid =
      .ok (match List.lookup sid r7.segmentInfo with
        | none => []
        | some entry => entry.indexInfos.map toFieldIndexInfo) := by
  refine ⟨?_, ?_, ?_, ?_, ?_, ?_, ?_⟩ <;>
    simp [GetCollectionSchema, GetPartitions, GetRecoveryInfo,
      GetRecoveryInfoV2, DescribeIndex, GetSegmentInfo, GetIndexInfo,
      checkStatus, h1, h2, h3, h4, h5, h6, h7,
      s1, s2, s3, s4, s5, s6, s7]
  cases List.lookup sid r7.segmentInfo <;> rfl

/-- C5 witness: evaluated on the concrete success clients; the schema
returned is named "test_schema". -/
theorem broker_success_extraction_witness :
    GetCollectionSchema ⟨some dcSample, some rcSample⟩ 100 =
      .ok { name := "test_schema", fields := [] } ∧
    GetPartitions ⟨some dcSample, some rcSample⟩ 100 = .ok [10, 11, 12] ∧
    GetRecoveryInfo ⟨some dcSample, some rcSample⟩ 100 1000 =
      .ok ([{ collectionID := 100, channelName := "dml_0" }],
        [{ segmentID := 1 }, { segmentID := 2 }, { segmentID := 3 }]) ∧
    GetRecoveryInfoV2 ⟨some dcSample, some rcSample⟩ 100 1000 =
      .ok ([{ collectionID := 100, channelName := "dml_0" }],
        [{ id := 1, collectionID := 100 }, { id := 2, collectionID := 100 },
          { id := 3, collectionID := 100 }]) ∧
    DescribeIndex ⟨some dcSample, some rcSample⟩ 100 =
      .ok [{ indexID := 1 }, { indexID := 2 }] ∧
    GetSegmentInfo ⟨some dcSample, some rcSample⟩ [10000, 10001, 10002] =
      .ok { status := okStatus
            infos := [{ id := 10000, collectionID := 100 },
              { id := 10001, collectionID := 100 },
              { id := 10002, collectionID := 100 }] } ∧
    GetIndexInfo ⟨some dcSample, some rcSample⟩ 100 10000 =
      .ok [{ indexID := 1, filePaths := [] }, { indexID := 2, filePaths := [] },
        { indexID := 3, filePaths := [] }] :=
  broker_success_extraction dcSample rcSample 100 1000 10000
    [10000, 10001, 10002] _ _ _ _ _ _ _
    rfl rfl rfl rfl rfl rfl rfl rfl rfl rfl rfl rfl rfl rfl

/-- C6: on a successful envelope, GetRecoveryInfo (protocol v1) returns
the virtual-channel list and the segment-binlog-reference list verbatim
from the payload. -/
theorem GetRecoveryInfo_verbatim
    (dc : DataCoordClient) (r : Option RootCoordClient) (cid pid : Int)
    (resp : datapb.GetRecoveryInfoResponse)
    (hcall : dc.getRecoveryInfo cid pid = .envelope resp)
    (hok : resp.status.errorCode = .success) :
    GetRecoveryInfo ⟨some dc, r⟩ cid pid =
      .ok (resp.channels, resp.binlogs) := by
  simp [GetRecoveryInfo, hcall, checkStatus, hok]

/-- C6 witness: evaluated on the concrete sample client, the two
payload lists come back unchanged. -/
theorem GetRecoveryInfo_verbatim_witness :
    GetRecoveryInfo ⟨some dcSample, none⟩ 100 1000 =
      .ok ([{ collectionID := 100, channelName := "dml_0" }],
        [{ segmentID := 1 }, { segmentID := 2 }, { segmentID := 3 }]) :=
  GetRecoveryInfo_verbatim dcSample none 100 1000 _ rfl rfl

/-- C7: GetRecoveryInfoV2 is exposed alongside GetRecoveryInfo on the
same broker; on the sample payload with channels [dml_0] and segments
[1, 2, 3], it returns channel names ["dml_0"] and segment IDs
[1, 2, 3] with no error, while v1 also answers on the same broker. -/
theorem GetRecoveryInfoV2_scenario :
    (∃ p, GetRecoveryInfoV2 ⟨some dcSample, none⟩ 100 1000 = .ok p ∧
      p.1.map datapb.VchannelInfo.channelName = ["dml_0"] ∧
      p.2.map datapb.SegmentInfo.id = [1, 2, 3]) ∧
    (∃ q, GetRecoveryInfo ⟨some dcSample, none⟩ 100 1000 = .ok q) := by
  exact ⟨⟨([{ collectionID := 100, channelName := "dml_0" }],
    [{ id := 1, collectionID := 100 }, { id := 2, collectionID := 100 },
      { id := 3, collectionID := 100 }]), rfl, rfl, rfl⟩,
    ⟨([{ collectionID := 100, channelName := "dml_0" }],
      [{ segmentID := 1 }, { segmentID := 2 }, { segmentID := 3 }]), rfl⟩⟩

/-- C8: GetSegmentInfo takes its variadic segment ID input as a list;
against an authority answering requests per ID, the empty input is a
valid call answered by an empty result set and no error. -/
theorem GetSegmentInfo_empty_input
    (dc : DataCoordClient) (r : Option RootCoordClient)
    (f : Int → datapb.SegmentInfo)
    (hwell : ∀ ids, dc.getSegmentInfo ids =
      .envelope { status := okStatus, infos := ids.map f }) :
    ∃ resp, GetSegmentInfo ⟨some dc, r⟩ [] = .ok resp ∧
      resp.infos = [] := by
  refine ⟨{ status := okStatus, infos := [] }, ?_, rfl⟩
  simp [GetSegmentInfo, hwell [], checkStatus, okStatus]

/-- C8 witness: evaluated on the concrete sample client. -/
theorem GetSegmentInfo_empty_input_witness :
    ∃ resp, GetSegmentInfo ⟨some dcSample, none⟩ [] = .ok resp ∧
      resp.infos = [] :=
  GetSegmentInfo_empty_input dcSample none
    (fun i => { id := i, collectionID := 100 }) (fun _ => rfl)

/-- C9: broker construction accepts either handle as absent; every
operation whose required handle is absent fails fast with the
missing-capability error, and a broker holding only one handle serves
each of that authority's operations exactly as a fully-equipped broker
does. -/
theorem broker_optional_handles
    (dc : DataCoordClient) (rc : RootCoordClient)
    (cid pid sid : Int) (ids : List Int) :
    (GetCollectionSchema (NewCoordinatorBroker (some dc) none) cid =
      .error (.missingCapability "DescribeCollection") ∧
     GetPartitions (NewCoordinatorBroker (some dc) none) cid =
      .error (.missingCapability "ShowPartitions") ∧
     GetRecoveryInfo (NewCoordinatorBroker none (some rc)) cid pid =
      .error (.missingCapability "GetRecoveryInfo") ∧
     GetRecoveryInfoV2 (NewCoordinatorBroker none (some rc)) cid pid =
      .error (.missingCapability "GetRecoveryInfoV2") ∧
     DescribeIndex (NewCoordinatorBroker none (some rc)) cid =
      .error (.missingCapability "DescribeIndex") ∧
     GetSegmentInfo (NewCoordinatorBroker none (some rc)) ids =
      .error (.missingCapability "GetSegmentInfo") ∧
     GetIndexInfo (NewCoordinatorBroker none (some rc)) cid sid =
      .error (.missingCapability "GetIndexInfos")) ∧
    (GetCollectionSchema (NewCoordinatorBroker none (some rc)) cid =
      GetCollectionSchema (NewCoordinatorBroker (some dc) (some rc)) cid ∧
     GetPartitions (NewCoordinatorBroker none (some rc)) cid =
      GetPartitions (NewCoordinatorBroker (some dc) (some rc)) cid ∧
     GetRecoveryInfo (NewCoordinatorBroker (some dc) none) cid pid =
      GetRecoveryInfo (NewCoordinatorBroker (some dc) (some rc)) cid pid ∧
     GetRecoveryInfoV2 (NewCoordinatorBroker (some dc) none) cid pid =
      GetRecoveryInfoV2 (NewCoordinatorBroker (some dc) (some rc)) cid pid ∧
     DescribeIndex (NewCoordinatorBroker (some dc) none) cid =
      DescribeIndex (NewCoordinatorBroker (some dc) (some rc)) cid ∧
     GetSegmentInfo (NewCoordinatorBroker (some dc) none) ids =
      GetSegmentInfo (NewCoordinatorBroker (some dc) (some rc)) ids ∧
     GetIndexInfo (NewCoordinatorBroker (some dc) none) cid sid =
      GetIndexInfo (NewCoordinatorBroker (some dc) (some rc)) cid sid) :=
  ⟨⟨rfl, rfl, rfl, rfl, rfl, rfl, rfl⟩,
   ⟨rfl, rfl, rfl, rfl, rfl, rfl, rfl⟩⟩
